import Mathlib

/-!
Verification of the Book-Finder Discord bot (`src/bot.py`) against its
natural-language specification.

The Python source is shallowly embedded: pure string manipulation becomes
Lean functions on `String`/`List Char`; the HTML documents handed to
BeautifulSoup become explicit data (`Cell`, `STable`, `Anchor`, `MirrorPage`);
network traffic becomes explicit response values (`SearchFetch`, `PageFetch`,
`HeadResponse`, `GetResponse`) passed to the embedded functions, so that every
function is total and executable.  Byte strings are modelled as `List Nat`.
-/

namespace BookFinder

/-! ### Generic string helpers (models of the Python primitives used) -/

/-- Does the character list `hay` start with `needle`? -/
def charListHasPre : List Char → List Char → Bool
  | [], _ => true
  | _ :: _, [] => false
  | a :: as, b :: bs => a = b && charListHasPre as bs

/-- Case-insensitive (ASCII) version of `charListHasPre`. -/
def charListHasPreCI : List Char → List Char → Bool
  | [], _ => true
  | _ :: _, [] => false
  | a :: as, b :: bs => a.toLower = b.toLower && charListHasPreCI as bs

/-- Does `hay` contain `needle` as a contiguous sublist? -/
def charListContains (needle : List Char) : List Char → Bool
  | [] => needle.isEmpty
  | c :: t => charListHasPre needle (c :: t) || charListContains needle t

/-- Model of the Python expression `needle in hay` on strings. -/
def strContains (hay needle : String) : Bool :=
  charListContains needle.toList hay.toList

/-- ASCII lower-casing; model of Python `str.lower()` for the ASCII data used. -/
def lowerStr (s : String) : String :=
  String.mk (s.toList.map Char.toLower)

/-- ASCII upper-casing; model of Python `str.upper()` for the ASCII data used. -/
def upperStr (s : String) : String :=
  String.mk (s.toList.map Char.toUpper)

/-- Does `s` end with `tail`?  Model of Python `str.endswith`. -/
def strEndsWith (s tail : String) : Bool :=
  charListHasPre tail.toList.reverse s.toList.reverse

/-- Does `s` start with `pre`?  Model of Python `str.startswith`. -/
def strStartsWith (s pre : String) : Bool :=
  charListHasPre pre.toList s.toList

/-- Model of Python `str.strip()`: whitespace removed from both ends. -/
def pyStrip (s : String) : String :=
  String.mk
    (((s.toList.dropWhile Char.isWhitespace).reverse.dropWhile
        Char.isWhitespace).reverse)

/-- Split on a single-character separator. -/
def splitOnCharL (sep : Char) : List Char → List (List Char)
  | [] => [[]]
  | c :: rest =>
    let r := splitOnCharL sep rest
    if c = sep then [] :: r
    else
      match r with
      | h :: t => (c :: h) :: t
      | [] => [[c]]

/-- Model of Python `str.split(sep)` for a one-character separator. -/
def pySplitChar (sep : Char) (s : String) : List String :=
  (splitOnCharL sep s.toList).map String.mk

/-- First index at which `needle` occurs in `hay`, if any. -/
def findSubIdx (hay needle : String) : Option Nat :=
  (List.range (hay.toList.length + 1)).find?
    (fun i => charListHasPre needle.toList (hay.toList.drop i))

/-- Python truthiness of an optional string: `None` and `""` are falsy. -/
def pyTruthy : Option String → Bool
  | none => false
  | some s => s != ""

/-- Hex digit value, if `c` is a hex digit. -/
def hexVal (c : Char) : Option Nat :=
  if c.isDigit then some (c.toNat - 48)
  else if c.toNat ≥ 97 ∧ c.toNat ≤ 102 then some (c.toNat - 87)
  else if c.toNat ≥ 65 ∧ c.toNat ≤ 70 then some (c.toNat - 55)
  else none

/-- Percent-decoding on characters; model of `urllib.parse.unquote` restricted
to single-byte escapes (sufficient for the ASCII data exercised here). -/
def percentDecodeL : List Char → List Char
  | '%' :: a :: b :: rest =>
    match hexVal a, hexVal b with
    | some x, some y => Char.ofNat (16 * x + y) :: percentDecodeL rest
    | _, _ => '%' :: percentDecodeL (a :: b :: rest)
  | c :: rest => c :: percentDecodeL rest
  | [] => []

/-- Model of `urllib.parse.unquote`. -/
def percentDecode (s : String) : String :=
  String.mk (percentDecodeL s.toList)

/-- Characters removed by `safe_filename`'s `re.sub(r'[\\/*?:"<>|]', "", ...)`. -/
def badFilenameChars : List Char := ['\\', '/', '*', '?', ':', '"', '<', '>', '|']

/-- Collapse runs of dots to a single dot; the `prevDot` flag records whether
the previously emitted character was a dot.  Model of `re.sub(r'\.+', '.', s)`. -/
def collapseDotsAux : Bool → List Char → List Char
  | _, [] => []
  | prevDot, c :: rest =>
    if c = '.' then
      if prevDot then collapseDotsAux true rest
      else '.' :: collapseDotsAux true rest
    else c :: collapseDotsAux false rest

/-- Model of `re.sub(r'\.+', '.', s)`. -/
def collapseDots (s : String) : String :=
  String.mk (collapseDotsAux false s.toList)

/-- Strip any of `chars` from both ends; model of Python `str.strip(chars)`. -/
def stripCharsBoth (chars : List Char) (s : String) : String :=
  String.mk
    (((s.toList.dropWhile (chars.contains ·)).reverse.dropWhile
        (chars.contains ·)).reverse)

/-- Embedding of `safe_filename` (bot.py lines 80-89). -/
def safe_filename (filename : String) : String :=
  let f := percentDecode filename
  let f := String.mk (f.toList.filter (fun c => !badFilenameChars.contains c))
  -- the subsequent replace('/', '_') and replace('\\', '_') are no-ops:
  -- both characters were removed by the substitution above
  let f := collapseDots f
  let f := stripCharsBoth ['.', ' '] f
  let f := if f = "" then "downloaded_file" else f
  String.mk (f.toList.take 200)

/-- Model of `os.path.splitext` (posix): split at the last dot of the basename
unless that dot sits in the basename's leading run of dots. -/
def splitext (s : String) : String × String :=
  let cs := s.toList
  let n := cs.length
  let slashIdx := ((List.range n).filter (fun i => cs.getD i ' ' = '/')).getLast?
  let base0 := match slashIdx with | some i => i + 1 | none => 0
  let dotIdx := ((List.range n).filter (fun i => cs.getD i ' ' = '.')).getLast?
  match dotIdx with
  | some d =>
    if base0 < d ∧ (List.range (d - base0)).any (fun j => cs.getD (base0 + j) ' ' ≠ '.')
    then (String.mk (cs.take d), String.mk (cs.drop d))
    else (s, "")
  | none => (s, "")

/-- Is `s` a syntactically valid URL scheme (a letter followed by letters,
digits, plus, minus or dot)? -/
def validScheme (s : String) : Bool :=
  match s.toList with
  | [] => false
  | c :: rest =>
    c.isAlpha && rest.all (fun d => d.isAlphanum || d = '+' || d = '-' || d = '.')

/-- Model of `urllib.parse.urlparse(u).netloc` for the URL forms exercised. -/
def netlocOf (u : String) : String :=
  let rest : Option String :=
    if strStartsWith u "//" then some (String.mk (u.toList.drop 2))
    else match findSubIdx u "://" with
      | some i => if validScheme (String.mk (u.toList.take i)) then some (String.mk (u.toList.drop (i + 3))) else none
      | none => none
  match rest with
  | none => ""
  | some r => String.mk (r.toList.takeWhile (fun c => c ≠ '/' ∧ c ≠ '?' ∧ c ≠ '#'))

/-- Model of `urllib.parse.urlparse(u).path` for the URL forms exercised. -/
def urlPathOf (u : String) : String :=
  let t : String :=
    match findSubIdx u "://" with
    | some i =>
      if validScheme (String.mk (u.toList.take i)) then
        String.mk ((u.toList.drop (i + 3)).dropWhile (fun c => c ≠ '/' ∧ c ≠ '?' ∧ c ≠ '#'))
      else u
    | none =>
      if strStartsWith u "//" then
        String.mk ((u.toList.drop 2).dropWhile (fun c => c ≠ '/' ∧ c ≠ '?' ∧ c ≠ '#'))
      else u
  String.mk (t.toList.takeWhile (fun c => c ≠ '?' ∧ c ≠ '#'))

/-- Scheme of a URL, e.g. `"http"` for `"http://x/y"`. -/
def schemeOf (u : String) : String :=
  match findSubIdx u "://" with
  | some i => if validScheme (String.mk (u.toList.take i)) then String.mk (u.toList.take i) else ""
  | none => ""

/-- `scheme://netloc` part of a URL. -/
def schemeHostOf (u : String) : String :=
  schemeOf u ++ "://" ++ netlocOf u

/-- Directory part of the base URL's path, ending in `/`. -/
def baseDirOf (u : String) : String :=
  let p := urlPathOf u
  let cs := p.toList
  let lastSlash := ((List.range cs.length).filter (fun i => cs.getD i ' ' = '/')).getLast?
  match lastSlash with
  | some i => schemeHostOf u ++ String.mk (cs.take (i + 1))
  | none => schemeHostOf u ++ "/"

/-- Model of `urllib.parse.urljoin` for the absolute/host-relative/relative
http(s) references the bot produces. -/
def urljoin (base url : String) : String :=
  if url = "" then base
  else if (match findSubIdx url "://" with
           | some i => validScheme (String.mk (url.toList.take i))
           | none => false) then url
  else if strStartsWith url "//" then schemeOf base ++ ":" ++ url
  else if strStartsWith url "/" then schemeHostOf base ++ url
  else baseDirOf base ++ url

/-! ### Configuration constants (bot.py lines 55-77) -/

def LIBGEN_BASE_URL : String := "https://libgen.is"

def SEARCH_URLS : List (String × String) :=
  [("libgen", LIBGEN_BASE_URL ++ "/search.php"),
   ("fiction", LIBGEN_BASE_URL ++ "/fiction/"),
   ("scimag", LIBGEN_BASE_URL ++ "/scimag/")]

def DISCORD_FILE_LIMIT_BYTES : Nat := 8 * 1024 * 1024

/-! ### HTML data model

A table cell as seen through the BeautifulSoup accessors the code uses:
`text` models `get_text(strip=True)`, and `links` lists the `(href, text)`
pairs of the cell's `a[href]` anchors in document order, so that
`find('a', href=True)` is `links.head?` and `find_all('a', href=True)` is
`links`. -/

structure Cell where
  text : String
  links : List (String × String)
  deriving DecidableEq, Repr

def defaultCell : Cell := ⟨"", []⟩

/-- A `<table>` element with its class attribute and its `<tr>` rows. -/
structure STable where
  className : String
  rows : List (List Cell)
  deriving DecidableEq, Repr

/-- The parsed search-results document: its tables in document order. -/
structure SearchPage where
  tables : List STable
  deriving DecidableEq, Repr

/-- Outcome of the search HTTP GET: a `requests` exception, or a response
with its status code and parsed body.  `raise_for_status` on a status of 400
or more raises `requests.exceptions.RequestException`, which the code catches
and turns into an empty result list. -/
inductive SearchFetch where
  | requestError (msg : String)
  | response (status : Nat) (page : SearchPage)
  deriving DecidableEq, Repr

/-- The parsed search hit record appended to `results`
(bot.py lines 237-242). -/
structure ResultItem where
  title : String
  authors : String
  publisher : String
  year : String
  pages : String
  language : String
  size : String
  extension : String
  mirror1_url : Option String
  mirror2_url : Option String
  details_url : Option String
  deriving DecidableEq, Repr

/-! ### Column index maps (bot.py lines 170-172)

The Python code keeps a per-category dict of column indices with `-1` as the
"absent" sentinel and `.get(key, -1)` for keys a category's dict lacks.
`others` holds the values of keys the row parser never reads (`series` for
fiction, `journal` for scimag); they still take part in the
`max_defined_index` computation. -/

structure CatIdx where
  authors : Int
  title : Int
  publisher : Int
  year : Int
  pages : Int
  language : Int
  size : Int
  extension : Int
  mirror1 : Int
  mirror2 : Int
  mirrors : Int
  file_info : Int
  others : List Int
  deriving DecidableEq, Repr

def libgenIdx : CatIdx :=
  { authors := 1, title := 2, publisher := 3, year := 4, pages := 5,
    language := 6, size := 7, extension := 8, mirror1 := 9, mirror2 := 10,
    mirrors := -1, file_info := -1, others := [] }

def fictionIdx : CatIdx :=
  { authors := 0, title := 2, publisher := -1, year := -1, pages := -1,
    language := 3, size := -1, extension := -1, mirror1 := -1, mirror2 := -1,
    mirrors := 5, file_info := 4, others := [1] }

def scimagIdx : CatIdx :=
  { authors := 0, title := 1, publisher := -1, year := -1, pages := -1,
    language := -1, size := 3, extension := -1, mirror1 := -1, mirror2 := -1,
    mirrors := 4, file_info := -1, others := [2] }

def idxFor (topic : String) : CatIdx :=
  if topic = "fiction" then fictionIdx
  else if topic = "scimag" then scimagIdx
  else libgenIdx

def idxValues (m : CatIdx) : List Int :=
  [m.authors, m.title, m.publisher, m.year, m.pages, m.language, m.size,
   m.extension, m.mirror1, m.mirror2, m.mirrors, m.file_info] ++ m.others

/-- `max((v for v in idx.values() if v is not None and v >= 0), default=-1)`
(bot.py line 176). -/
def maxDefinedIndex (m : CatIdx) : Int :=
  ((idxValues m).filter (fun v => 0 ≤ v)).foldl max (-1)

/-! ### Title ISBN-suffix stripping (bot.py line 190) -/

/-- Does `cs` in its entirety match the regex
`\s*\[?\d{10,13}[X]?\]?\s*` (the pattern is anchored at the end of the string
by the caller)?  Each optional token is forced, so the match is deterministic. -/
def isbnTailMatch (cs : List Char) : Bool :=
  let cs1 := cs.dropWhile Char.isWhitespace
  let cs2 := if cs1.head? = some '[' then cs1.tail else cs1
  let digits := cs2.takeWhile Char.isDigit
  let n := digits.length
  if n < 10 || 13 < n then false
  else
    let r1 := cs2.drop n
    let r2 := if r1.head? = some 'X' then r1.tail else r1
    let r3 := if r2.head? = some ']' then r2.tail else r2
    r3.all Char.isWhitespace

/-- Model of `re.sub(r'\s*\[?\d{10,13}[X]?\]?\s*$', '', title)`: since the
pattern is anchored at the end and cannot match the empty string, `re.sub`
removes the suffix starting at the leftmost position from which the rest of
the string matches, or leaves the string unchanged. -/
def stripIsbnSub (s : String) : String :=
  let cs := s.toList
  match (List.range (cs.length + 1)).find? (fun i => isbnTailMatch (cs.drop i)) with
  | some i => String.mk (cs.take i)
  | none => s

/-- `re.sub(r'\s*\[?\d{10,13}[X]?\]?\s*$', '', title).strip()`. -/
def stripIsbn (s : String) : String :=
  pyStrip (stripIsbnSub s)

/-- Predicate taken from the specification's words: does the string end in a
bracketed 10-13 digit ISBN/ASIN fragment (regex `\[\d{10,13}X?\]\s*$`,
brackets required)?  Used to judge claim C6, not part of the embedding. -/
def bracketIsbnTail (cs : List Char) : Bool :=
  let cs1 := cs.dropWhile Char.isWhitespace
  match cs1 with
  | '[' :: rest =>
    let digits := rest.takeWhile Char.isDigit
    let n := digits.length
    if n < 10 || 13 < n then false
    else
      let r1 := rest.drop n
      let r2 := if r1.head? = some 'X' then r1.tail else r1
      match r2 with
      | ']' :: r3 => r3.all Char.isWhitespace
      | _ => false
  | _ => false

def hasTrailingIsbnFragment (s : String) : Bool :=
  (List.range (s.toList.length + 1)).any (fun i => bracketIsbnTail (s.toList.drop i))

/-! ### Row parsing (bot.py lines 174-249) -/

/-- `cells[i]`, defaulting for out-of-range access (every use is guarded by
an index check, as in the Python). -/
def cellAt (cells : List Cell) (i : Int) : Cell :=
  cells.getD i.toNat defaultCell

/-- The record a data row produces, before the final usable-URL test
(bot.py lines 183-242). -/
def mkRowItem (search_url : String) (m : CatIdx) (cells : List Cell) : ResultItem :=
  let tc := cellAt cells m.title
  let titlePair : String × Option String :=
    match tc.links.head? with
    | some l => (stripIsbn l.2, some (urljoin search_url l.1))
    | none => (tc.text, none)
  let title := if titlePair.1 = "" then "N/A" else titlePair.1
  let details_url := titlePair.2
  let authors :=
    if 0 ≤ m.authors ∧ m.authors < (cells.length : Int) then
      let t := (cellAt cells m.authors).text
      if t = "" then "N/A" else t
    else "N/A"
  let publisher :=
    if 0 ≤ m.publisher ∧ m.publisher < (cells.length : Int) then
      (cellAt cells m.publisher).text
    else ""
  let year :=
    if 0 ≤ m.year ∧ m.year < (cells.length : Int) then
      (cellAt cells m.year).text
    else ""
  let pages :=
    if 0 ≤ m.pages ∧ m.pages < (cells.length : Int) then
      (pySplitChar '[' (cellAt cells m.pages).text).headD ""
    else ""
  let language :=
    if 0 ≤ m.language ∧ m.language < (cells.length : Int) then
      let t := (cellAt cells m.language).text
      if t = "" then "N/A" else t
    else "N/A"
  let size0 :=
    if 0 ≤ m.size ∧ m.size < (cells.length : Int) then
      let t := (cellAt cells m.size).text
      if t = "" then "N/A" else t
    else "N/A"
  let ext0 :=
    if 0 ≤ m.extension ∧ m.extension < (cells.length : Int) then
      let t := (cellAt cells m.extension).text
      if t = "" then "n/a" else t
    else "N/A"
  -- combined "extension/size" cell (bot.py lines 212-216)
  let extSize : String × String :=
    if 0 ≤ m.file_info ∧ m.file_info < (cells.length : Int) then
      let t := (cellAt cells m.file_info).text
      let parts := pySplitChar '/' t
      if parts.length = 2 then
        (if pyStrip (parts.getD 0 "") = "" then "n/a" else pyStrip (parts.getD 0 ""),
         if pyStrip (parts.getD 1 "") = "" then "N/A" else pyStrip (parts.getD 1 ""))
      else if t ≠ "" then (t, size0)
      else (ext0, size0)
    else (ext0, size0)
  let extension := if extSize.1 = "" then "n/a" else lowerStr extSize.1
  let size := extSize.2
  -- mirror extraction (bot.py lines 219-230)
  let m1a : Option String :=
    if 0 ≤ m.mirror1 ∧ m.mirror1 < (cells.length : Int) then
      match (cellAt cells m.mirror1).links.head? with
      | some l => if strStartsWith l.1 "http" then some l.1 else none
      | none => none
    else none
  let mirrorPair : Option String × Option String :=
    if 0 ≤ m.mirror2 ∧ m.mirror2 < (cells.length : Int) then
      (m1a,
       match (cellAt cells m.mirror2).links.head? with
       | some l => if strStartsWith l.1 "http" then some l.1 else none
       | none => none)
    else if 0 ≤ m.mirrors ∧ m.mirrors < (cells.length : Int) then
      let found := ((cellAt cells m.mirrors).links.map
        Prod.fst).filter (fun h => strStartsWith h "http")
      (match found.head? with
       | some h => some h
       | none => m1a,
       if 1 < found.length then some (found.getD 1 "") else none)
    else (m1a, none)
  -- details-page fallback (bot.py lines 232-234)
  let m1 :=
    if !pyTruthy mirrorPair.1 && pyTruthy details_url then details_url
    else mirrorPair.1
  let m2 := mirrorPair.2
  { title := title, authors := authors, publisher := publisher,
    year := year, pages := pages, language := language, size := size,
    extension := extension, mirror1_url := m1, mirror2_url := m2,
    details_url := details_url }

/-- Parse of a single data row, after the cell-count guard has passed
(bot.py lines 181-245): skipped (`none`) when no title cell is reachable or
when neither a usable mirror URL nor a substituted details URL was found
(`if target_url_mirror1 or target_url_mirror2`, line 236). -/
def parseRowBody (search_url : String) (m : CatIdx) (cells : List Cell) : Option ResultItem :=
  if 0 ≤ m.title ∧ m.title < (cells.length : Int) then
    let r := mkRowItem search_url m cells
    if pyTruthy r.mirror1_url || pyTruthy r.mirror2_url then some r else none
  else none

/-- One loop iteration of the row loop, including the cell-count guard
(bot.py lines 174-179). -/
def parseRowFull (search_url : String) (m : CatIdx) (cells : List Cell) : Option ResultItem :=
  if (cells.length : Int) ≤ maxDefinedIndex m then none
  else parseRowBody search_url m cells

/-! ### Table selection and the whole search (bot.py lines 97-256) -/

/-- One of `Author|Title|DOI|Journal|Series`, case-insensitively, occurs in
the cell text (the `string=re.compile(..., re.I)` filter). -/
def headerKeyword (s : String) : Bool :=
  ["author", "title", "doi", "journal", "series"].any
    (fun k => strContains (lowerStr s) k)

/-- Does the table's first row contain a header cell (bot.py lines 146-147)? -/
def headerCheck (t : STable) : Bool :=
  match t.rows.head? with
  | some r => r.any (fun c => headerKeyword c.text)
  | none => false

/-- Table identification (bot.py lines 137-159): tables of the category's
class, first one passing the header check, else the first with more than one
row. -/
def findMainTable (tables : List STable) (cls : String) : Option STable :=
  let results_tables := tables.filter (fun t => t.className = cls)
  if results_tables.isEmpty then none
  else match results_tables.find? headerCheck with
    | some t => some t
    | none => results_tables.find? (fun t => 1 < t.rows.length)

/-- Embedding of `search_libgen_async` (bot.py lines 97-256).  The HTTP
exchange is abstracted into the `fetch` argument; every failure path of the
original returns the empty list, exactly as the code does. -/
def search_libgen_async (search_topic : String) (fetch : SearchFetch) : List ResultItem :=
  match SEARCH_URLS.lookup search_topic with
  | none => []
  | some search_url =>
    match fetch with
    | .requestError _ => []
    | .response status page =>
      if 400 ≤ status then []  -- raise_for_status, caught at line 126
      else
        let table_class := if search_topic = "fiction" ∨ search_topic = "scimag"
          then "catalog" else "c"
        match findMainTable page.tables table_class with
        | none => []
        | some main_table =>
          if main_table.rows.length ≤ 1 then []
          else
            let m := idxFor search_topic
            (main_table.rows.drop 1).filterMap (parseRowFull search_url m)

/-! ### Mirror resolver (bot.py lines 259-375) -/

/-- An anchor element as the resolver inspects it. `hasHref` models the
presence of the `href` attribute (the `href=True` filters), `text` models
`get_text(strip=True)`, and `inH2` whether the anchor is a direct child of an
`<h2>` (the `'h2 > a[href]'` selector). -/
structure Anchor where
  hasHref : Bool
  href : String
  text : String
  inH2 : Bool
  deriving DecidableEq, Repr

/-- The parsed mirror page: all anchors in document order, plus the anchors
inside the first `<td bgcolor="#A9F5BC">` (none when no such td exists). -/
structure MirrorPage where
  anchors : List Anchor
  greenTdAnchors : Option (List Anchor)
  deriving DecidableEq, Repr

/-- Outcome of fetching the mirror page: a raised `requests` exception
(including `raise_for_status`), or the final post-redirect URL together with
the parsed body. -/
inductive PageFetch where
  | failed
  | ok (finalUrl : String) (page : MirrorPage)
  deriving DecidableEq, Repr

/-- Result of the resolver together with whether the page GET was issued at
all (the invalid-URL check returns before any network request). -/
structure ResolveRun where
  result : Option String
  fetched : Bool
  deriving DecidableEq, Repr

def KNOWN_DOC_EXTS : List String :=
  [".pdf", ".epub", ".mobi", ".zip", ".djvu", ".rar", ".chm", ".azw3"]

/-- Embedding of `get_libgen_download_link_async` (bot.py lines 259-375).
The HTTP exchange is abstracted into `fetch`; `finalUrl` plays the role of
`response.url`, the base of the final `urljoin`. -/
def get_libgen_download_link_async (page_url : String) (fetch : PageFetch) : ResolveRun :=
  if page_url = "" ∨ ¬ strStartsWith page_url "http" then ⟨none, false⟩
  else
    match fetch with
    | .failed => ⟨none, true⟩
    | .ok finalUrl page =>
      let mirror_host := netlocOf page_url
      -- Pattern 1: first 'h2 > a[href]' anchor, kept only if its text is GET
      let tag1 : Option String :=
        match page.anchors.find? (fun a => a.inH2 && a.hasHref) with
        | some a => if upperStr a.text = "GET" then some a.href else none
        | none => none
      -- Pattern 2: anchor inside the first td bgcolor=#A9F5BC whose href
      -- matches get\.php\?md5= or /get\? and whose text is GET
      let tag2 : Option String :=
        match tag1 with
        | some _ => tag1
        | none =>
          match page.greenTdAnchors with
          | none => none
          | some l =>
            match l.find? (fun a =>
                a.hasHref && (strContains a.href "get.php?md5=" ||
                              strContains a.href "/get?")) with
            | some a => if upperStr a.text = "GET" then some a.href else none
            | none => none
      -- Pattern 3: any GET-labelled anchor with a download-ish href on the
      -- same host (or relative)
      let tag3 : Option String :=
        match tag2 with
        | some _ => tag2
        | none =>
          ((page.anchors.filter (fun a => a.hasHref)).find? (fun a =>
              upperStr a.text = "GET" &&
              (strContains a.href "get.php" || strContains a.href "/get?" ||
               strContains a.href "download") &&
              (netlocOf a.href = "" || netlocOf a.href = mirror_host))).map
            (fun a => a.href)
      -- Pattern 4: SciMag/alternative links
      let tag4 : Option String :=
        match tag3 with
        | some _ => tag3
        | none =>
          let possible := ((page.anchors.filter (fun a => a.hasHref)).map
              (fun a => a.href)).filter (fun h =>
            ((["library.lol", "libgen.rs", "books.ms", "sci-hub"].any
                (fun d => strContains h d)) ||
             (["/scimag/", "/get?", "/download.php", "/book/index.php"].any
                (fun p => strContains h p))) &&
            !(["search.php", "browse.php"].any (fun v => strContains h v)))
          let preferred := possible.filter (fun h =>
            strContains h "get" || strContains h "library.lol" ||
            strContains h "sci-hub")
          match preferred.head? with
          | some h => some h
          | none => possible.head?
      match tag4 with
      | some h =>
        if h ≠ "" then ⟨some (urljoin finalUrl h), true⟩
        else if KNOWN_DOC_EXTS.any (fun e => strEndsWith (lowerStr page_url) e)
          then ⟨some page_url, true⟩
        else ⟨none, true⟩
      | none =>
        if KNOWN_DOC_EXTS.any (fun e => strEndsWith (lowerStr page_url) e)
          then ⟨some page_url, true⟩
        else ⟨none, true⟩

/-! ### Streaming downloader (bot.py lines 377-561) -/

/-- The HEAD response (bot.py lines 396-410): status and the
`content-length` header if present. -/
structure HeadResponse where
  status_code : Nat
  content_length : Option Nat
  deriving DecidableEq, Repr

/-- The streamed GET response.  `url` is the final post-redirect URL,
`peekSnippet` the decoded result of `response.raw.peek(2048)`, and `chunks`
the byte chunks `iter_content` yields (bytes as `Nat`). -/
structure GetResponse where
  status_code : Nat
  url : String
  content_type : String
  content_disposition : Option String
  content_length : Option Nat
  peekSnippet : String
  chunks : List (List Nat)
  deriving DecidableEq, Repr

/-- The classified outcome of `download_book_to_discord`: `success` models
returning a `discord.File`, every other constructor one of the error-string
returns. -/
inductive DownloadResult where
  | noUrl
  | headTooLarge (contentLength : Nat)
  | serverStatus (code : Nat)
  | httpError (code : Nat)
  | captchaRequired (finalUrl : String)
  | htmlPage (finalUrl : String)
  | getHeaderTooLarge (contentLength : Nat)
  | tooLarge (downloadedSoFar : Nat)
  | success (bytes : List Nat) (filename : String)
  deriving DecidableEq, Repr

/-- A download run: its result, whether `response.close()` was called inside
the function body (as opposed to only by the `finally` block), and how many
body bytes were written into the in-memory buffer. -/
structure DownloadRun where
  result : DownloadResult
  closedEarly : Bool
  bytesBuffered : Nat
  deriving DecidableEq, Repr

def SERVER_ERROR_CODES : List Nat := [502, 503, 504, 404, 403]

def VALID_EXTENSIONS : List String :=
  ["pdf", "epub", "mobi", "azw3", "djvu", "zip", "rar", "txt", "chm"]

def TYPE_MAP : List (String × String) :=
  [("application/pdf", "pdf"), ("application/epub+zip", "epub"),
   ("application/x-mobipocket-ebook", "mobi"),
   ("application/vnd.amazon.ebook", "azw3"), ("image/vnd.djvu", "djvu"),
   ("application/zip", "zip"), ("application/vnd.rar", "rar"),
   ("application/x-rar-compressed", "rar"), ("text/plain", "txt"),
   ("application/vnd.ms-htmlhelp", "chm")]

def apoChar : Char := Char.ofNat 39

/-- Characters the capture group `[^";\r\n]+` accepts. -/
def dispCaptureChar (c : Char) : Bool :=
  c ≠ '"' ∧ c ≠ ';' ∧ c ≠ '\r' ∧ c ≠ '\n'

/-- Match of `filename\*?=(?:UTF-\d'')?"?([^";\r\n]+)"?` (case-insensitive)
at the start of `cs`, returning the capture group.  The optional `UTF-\d''`
group is greedy with a backtracking fall-back, exactly like the regex. -/
def dispMatchAt (cs : List Char) : Option (List Char) :=
  if charListHasPreCI "filename".toList cs then
    let r1 := cs.drop 8
    let r2 := if r1.head? = some '*' then r1.drop 1 else r1
    match r2 with
    | '=' :: r3 =>
      let tryTail : List Char → Option (List Char) := fun r =>
        let rq := if r.head? = some '"' then r.tail else r
        let cap := rq.takeWhile dispCaptureChar
        if cap.isEmpty then none else some cap
      let utfPath : Option (List Char) :=
        if charListHasPreCI "utf-".toList r3 then
          match r3.drop 4 with
          | d :: a :: b :: rest =>
            if d.isDigit ∧ a = apoChar ∧ b = apoChar then tryTail rest else none
          | _ => none
        else none
      match utfPath with
      | some cap => some cap
      | none => tryTail r3
    | _ => none
  else none

/-- `re.search` of the Content-Disposition filename pattern: leftmost match
wins (bot.py line 465). -/
def dispFilenameOf (s : String) : Option String :=
  match (List.range (s.toList.length + 1)).findSome?
      (fun i => dispMatchAt (s.toList.drop i)) with
  | some cap => some (String.mk cap)
  | none => none

/-- The header extension derived from a raw captured filename:
`os.path.splitext(unquote(raw))[1].lower().lstrip('.')`. -/
def headerExtFromRaw (raw : String) : String :=
  String.mk ((lowerStr (splitext (percentDecode raw)).2).toList.dropWhile (fun c => c = '.'))

/-- The base part of a raw captured filename. -/
def headerBaseFromRaw (raw : String) : String :=
  (splitext (percentDecode raw)).1

/-- Filename refinement from the Content-Disposition header
(bot.py lines 461-480).  `extension` is the original hint argument, consulted
by the `elif extension in ['n/a', 'bin']` branch. -/
def resolveDisposition (filename_base final_extension extension : String)
    (cd : Option String) : String × String :=
  match cd with
  | none => (filename_base, final_extension)
  | some s =>
    match dispFilenameOf s with
    | none => (filename_base, final_extension)
    | some raw =>
      let header_ext := headerExtFromRaw raw
      if VALID_EXTENSIONS.contains header_ext then
        (safe_filename (headerBaseFromRaw raw), header_ext)
      else if (extension = "n/a" ∨ extension = "bin") ∧ header_ext ≠ "" then
        (filename_base, header_ext)
      else (filename_base, final_extension)

/-- Fallback extension deduction from Content-Type or the final URL path
(bot.py lines 483-504), entered only when the extension is still `bin`/`n/a`. -/
def fallbackExt (content_type final_url final_extension : String) : String :=
  let ctBase := pyStrip ((pySplitChar ';' content_type).headD "")
  match TYPE_MAP.lookup ctBase with
  | some e => e
  | none =>
    let uext := String.mk ((lowerStr (splitext (urlPathOf final_url)).2).toList.dropWhile
      (fun c => c = '.'))
    if VALID_EXTENSIONS.contains uext then uext else final_extension

/-- The HEAD short-circuit (bot.py lines 408-410): `Failure{TooLarge}`
before the GET when HEAD succeeded and advertises a too-large
Content-Length. -/
def headShortCircuit (head : Option HeadResponse) : Option Nat :=
  match head with
  | none => none
  | some h =>
    if 400 ≤ h.status_code then none  -- raise_for_status → head_failed
    else match h.content_length with
      | some n => if DISCORD_FILE_LIMIT_BYTES < n then some n else none
      | none => none

/-- `head_failed` flag (bot.py lines 395-417). -/
def headFailed (head : Option HeadResponse) : Bool :=
  match head with
  | none => true
  | some h => 400 ≤ h.status_code

/-- The GET-response Content-Length guard (bot.py lines 514-519): abort
when HEAD did not fail and the GET's Content-Length exceeds the cap. -/
def getLengthAbort (head : Option HeadResponse) (resp : GetResponse) : Option Nat :=
  if headFailed head then none
  else match resp.content_length with
    | some n => if DISCORD_FILE_LIMIT_BYTES < n then some n else none
    | none => none

/-- The streaming loop (bot.py lines 522-530): walk the chunks, skipping
empty keep-alive chunks, adding each chunk's length to the running count
before writing; stop with the exceeded flag as soon as the count passes the
limit, leaving the offending chunk unbuffered.  Returns
`(downloaded_size, buffer, limit_exceeded)`. -/
def streamLoop (limit : Nat) (downloaded : Nat) (buffer : List Nat) :
    List (List Nat) → Nat × List Nat × Bool
  | [] => (downloaded, buffer, false)
  | c :: rest =>
    if c.isEmpty then streamLoop limit downloaded buffer rest
    else
      let d := downloaded + c.length
      if limit < d then (d, buffer, true)
      else streamLoop limit d (buffer ++ c) rest

/-- Total byte size of a chunk list. -/
def totalSize (chunks : List (List Nat)) : Nat :=
  (chunks.map List.length).sum

/-- The sci-hub CAPTCHA detection condition (bot.py lines 447-448). -/
def sciHubCaptcha (finalUrl snippet : String) : Bool :=
  strContains finalUrl "sci-hub." &&
  (strContains (lowerStr snippet) "captcha" ||
   strContains (lowerStr snippet) "verify you are human" ||
   strContains snippet "<form")

/-- Embedding of `download_book_to_discord` (bot.py lines 377-561).  The
HEAD and GET exchanges are abstracted into `head` and `resp`. -/
def download_book_to_discord (download_url title extension : String)
    (head : Option HeadResponse) (resp : GetResponse) : DownloadRun :=
  if download_url = "" then ⟨.noUrl, false, 0⟩
  else
    let filename_base := safe_filename title
    let final_extension :=
      if extension ≠ "" ∧ extension ≠ "n/a" then lowerStr extension else "bin"
    match headShortCircuit head with
    | some n => ⟨.headTooLarge n, false, 0⟩
    | none =>
      if SERVER_ERROR_CODES.contains resp.status_code then
        ⟨.serverStatus resp.status_code, false, 0⟩
      else if 400 ≤ resp.status_code then ⟨.httpError resp.status_code, false, 0⟩
      else
        let final_url := resp.url
        let content_type := lowerStr resp.content_type
        if strContains content_type "text/html" then
          if sciHubCaptcha final_url resp.peekSnippet then
            ⟨.captchaRequired final_url, true, 0⟩
          else ⟨.htmlPage final_url, true, 0⟩
        else
          let names := resolveDisposition filename_base final_extension extension
            resp.content_disposition
          let final_extension2 :=
            if names.2 = "bin" ∨ names.2 = "n/a" then
              fallbackExt content_type final_url names.2
            else names.2
          let filename := names.1 ++ "." ++ final_extension2
          match getLengthAbort head resp with
          | some n => ⟨.getHeaderTooLarge n, true, 0⟩
          | none =>
            let s := streamLoop DISCORD_FILE_LIMIT_BYTES 0 [] resp.chunks
            if s.2.2 then ⟨.tooLarge s.1, true, s.2.1.length⟩
            else ⟨.success s.2.1 filename, false, s.2.1.length⟩

/-! ### Result cache (modelled from the spec) -/

/-- A search's full result list (spec §3 `SearchResultSet`). -/
abbrev SearchResultSet := List ResultItem

/-- Modelled from the spec: the Result Cache is not implemented in
`src/bot.py` (this variant keeps the result list on the Discord view object);
spec §2 and §3 describe it as a bounded mapping from message identifier to
`SearchResultSet` with a fixed capacity of 100 entries and insertion-order
(FIFO) eviction of the oldest entry. -/
def CACHE_CAPACITY : Nat := 100

/-- Modelled from the spec: insert an entry at the back of the
insertion-ordered cache, evicting from the front while over capacity. -/
def cacheInsert (cache : List (Nat × SearchResultSet)) (k : Nat)
    (v : SearchResultSet) : List (Nat × SearchResultSet) :=
  let c := cache ++ [(k, v)]
  if CACHE_CAPACITY < c.length then c.drop (c.length - CACHE_CAPACITY) else c

/-- User-visible reply of `findbook_command` once the search returns
(bot.py lines 961-1013). -/
inductive UserReply where
  | noResults
  | resultsEmbed (count : Nat)
  deriving DecidableEq, Repr

def findbookReply (results : List ResultItem) : UserReply :=
  if results.isEmpty then .noResults else .resultsEmbed results.length

/-! ## Theorems -/

/-! ### Helper lemmas -/

theorem charListHasPre_self_append (n m : List Char) :
    charListHasPre n (n ++ m) = true := by
  induction n with
  | nil => rfl
  | cons a as ih => simp [charListHasPre, ih]

theorem strEndsWith_append (a b : String) : strEndsWith (a ++ b) b = true := by
  have h : (a ++ b).toList = a.toList ++ b.toList := by
    simp [String.toList, String.data_append]
  simp [strEndsWith, h, List.reverse_append, charListHasPre_self_append]

theorem pyTruthy_ne_none {o : Option String} (h : pyTruthy o = true) : o ≠ none := by
  cases o with
  | none => simp [pyTruthy] at h
  | some s => simp

/-- If the streamed body is going to push the running count past the limit,
the loop stops at the first offending chunk: it returns the exceeded flag,
the count up to and including that chunk, and a buffer holding only the
chunks before it. -/
theorem streamLoop_exceed (limit : Nat) :
    ∀ (chunks : List (List Nat)) (downloaded : Nat) (buffer : List Nat),
    downloaded ≤ limit → limit < downloaded + totalSize chunks →
    ∃ pre c suf, chunks = pre ++ c :: suf ∧ c ≠ [] ∧
      downloaded + totalSize pre ≤ limit ∧
      limit < downloaded + totalSize pre + c.length ∧
      streamLoop limit downloaded buffer chunks =
        (downloaded + totalSize pre + c.length, buffer ++ pre.flatten, true) := by
  intro chunks
  induction chunks with
  | nil =>
    intro downloaded buffer hle hlt
    simp [totalSize] at hlt
    omega
  | cons c rest ih =>
    intro downloaded buffer hle hlt
    by_cases hc : c.isEmpty
    · have hcnil : c = [] := by simpa using hc
      subst hcnil
      have hlt2 : limit < downloaded + totalSize rest := by
        simpa [totalSize] using hlt
      obtain ⟨pre, c1, suf, e1, e2, e3, e4, e5⟩ := ih downloaded buffer hle hlt2
      refine ⟨[] :: pre, c1, suf, by simp [e1], e2, ?_, ?_, ?_⟩
      · simpa [totalSize] using e3
      · simpa [totalSize] using e4
      · simpa [streamLoop, totalSize] using e5
    · by_cases hover : limit < downloaded + c.length
      · refine ⟨[], c, rest, rfl, by simpa using hc, by simpa [totalSize], ?_, ?_⟩
        · simpa [totalSize] using hover
        · simp [streamLoop, hc, hover, totalSize]
      · have hle2 : downloaded + c.length ≤ limit := by omega
        have hlt2 : limit < downloaded + c.length + totalSize rest := by
          simp [totalSize] at hlt ⊢
          omega
        obtain ⟨pre, c1, suf, e1, e2, e3, e4, e5⟩ :=
          ih (downloaded + c.length) (buffer ++ c) hle2 hlt2
        refine ⟨c :: pre, c1, suf, by simp [e1], e2, ?_, ?_, ?_⟩
        · simp [totalSize] at e3 ⊢
          omega
        · simp [totalSize] at e4 ⊢
          omega
        · rw [streamLoop]
          simp only [hc, if_false, Bool.false_eq_true]
          rw [if_neg hover, e5]
          simp [totalSize, List.append_assoc]
          omega

/-- Claim C1: a streamed GET body that exceeds the Discord size cap
mid-stream makes `download_book_to_discord` abort at the first chunk pushing
the running count over the cap (that chunk and everything after it is never
buffered), call `response.close()`, and return the too-large failure carrying
the byte count downloaded so far — never a success. -/
theorem download_aborts_oversized_stream
    (download_url title extension : String) (head : Option HeadResponse)
    (resp : GetResponse)
    (hurl : download_url ≠ "")
    (hhead : headShortCircuit head = none)
    (hsrv : SERVER_ERROR_CODES.contains resp.status_code = false)
    (hst : resp.status_code < 400)
    (hct : strContains (lowerStr resp.content_type) "text/html" = false)
    (hcl : getLengthAbort head resp = none)
    (hbig : DISCORD_FILE_LIMIT_BYTES < totalSize resp.chunks) :
    ∃ pre c suf, resp.chunks = pre ++ c :: suf ∧ c ≠ [] ∧
      totalSize pre ≤ DISCORD_FILE_LIMIT_BYTES ∧
      DISCORD_FILE_LIMIT_BYTES < totalSize pre + c.length ∧
      download_book_to_discord download_url title extension head resp =
        ⟨.tooLarge (totalSize pre + c.length), true, totalSize pre⟩ ∧
      ∀ bs f, (download_book_to_discord download_url title extension head resp).result
        ≠ .success bs f := by
  obtain ⟨pre, c, suf, e1, e2, e3, e4, e5⟩ :=
    streamLoop_exceed DISCORD_FILE_LIMIT_BYTES resp.chunks 0 [] (Nat.zero_le _)
      (by simpa using hbig)
  have h400 : ¬ 400 ≤ resp.status_code := by omega
  have hrun : download_book_to_discord download_url title extension head resp =
      ⟨.tooLarge (totalSize pre + c.length), true, totalSize pre⟩ := by
    simp only [download_book_to_discord, hhead, hsrv, hcl]
    rw [if_neg hurl, if_neg h400]
    simp only [hct, Bool.false_eq_true, if_false, e5]
    simp [totalSize, List.length_flatten]
  refine ⟨pre, c, suf, e1, e2, by simpa using e3, by simpa using e4, hrun, ?_⟩
  intro bs f
  rw [hrun]
  simp

def c1resp : GetResponse :=
  ⟨200, "http://library.lol/main/x.pdf", "application/pdf", none, none, "",
   [List.replicate (DISCORD_FILE_LIMIT_BYTES + 1) 0]⟩

theorem c1_witness :
    ∃ d, (download_book_to_discord "http://library.lol/main/x.pdf" "Book" "pdf"
      none c1resp).result = .tooLarge d := by
  obtain ⟨pre, c, suf, _, _, _, _, hrun, _⟩ :=
    download_aborts_oversized_stream "http://library.lol/main/x.pdf" "Book" "pdf"
      none c1resp (by decide) rfl (by decide) (by decide) (by decide) rfl
      (by simp [c1resp, totalSize])
  exact ⟨_, by rw [hrun]⟩

/-- Claim C2: a GET response whose Content-Type indicates HTML (and which
passes the status checks that precede the content inspection) is classified
as a failure: CAPTCHA-blocked, carrying the final URL, exactly when the final
URL is a sci-hub domain and the peeked body prefix shows CAPTCHA markers;
HTML-poisoned, carrying the final URL, otherwise.  In both cases the
connection is closed immediately, nothing is buffered, and the result is
never a success. -/
theorem download_html_poisoned
    (download_url title extension : String) (head : Option HeadResponse)
    (resp : GetResponse)
    (hurl : download_url ≠ "")
    (hhead : headShortCircuit head = none)
    (hsrv : SERVER_ERROR_CODES.contains resp.status_code = false)
    (hst : resp.status_code < 400)
    (hct : strContains (lowerStr resp.content_type) "text/html" = true) :
    (sciHubCaptcha resp.url resp.peekSnippet = true →
      download_book_to_discord download_url title extension head resp =
        ⟨.captchaRequired resp.url, true, 0⟩) ∧
    (sciHubCaptcha resp.url resp.peekSnippet = false →
      download_book_to_discord download_url title extension head resp =
        ⟨.htmlPage resp.url, true, 0⟩) ∧
    ∀ bs f, (download_book_to_discord download_url title extension head resp).result
      ≠ .success bs f := by
  have h400 : ¬ 400 ≤ resp.status_code := by omega
  have hbase : download_book_to_discord download_url title extension head resp =
      (if sciHubCaptcha resp.url resp.peekSnippet then
        ⟨.captchaRequired resp.url, true, 0⟩
       else ⟨.htmlPage resp.url, true, 0⟩) := by
    simp only [download_book_to_discord, hhead, hsrv]
    rw [if_neg hurl, if_neg h400]
    simp [hct]
  refine ⟨fun hcap => by rw [hbase, if_pos hcap],
          fun hcap => by rw [hbase]; simp [hcap], ?_⟩
  intro bs f
  rw [hbase]
  by_cases hcap : sciHubCaptcha resp.url resp.peekSnippet <;> simp [hcap]

def c2resp : GetResponse :=
  ⟨200, "http://books.example/view", "text/html; charset=utf-8", none, none,
   "<html><head><title>Not found</title></head>", []⟩

theorem c2_witness :
    download_book_to_discord "http://books.example/get" "Book" "pdf" none c2resp =
      ⟨.htmlPage "http://books.example/view", true, 0⟩ :=
  (download_html_poisoned "http://books.example/get" "Book" "pdf" none c2resp
    (by decide) rfl (by decide) (by decide) (by decide)).2.1 (by decide)

/-! ### Claim C9 -/

theorem resolveDisposition_allowlist (fb fe : String) (cd raw : String)
    (hdm : dispFilenameOf cd = some raw)
    (hx : VALID_EXTENSIONS.contains (headerExtFromRaw raw) = true) :
    resolveDisposition fb fe "n/a" (some cd) =
      (safe_filename (headerBaseFromRaw raw), headerExtFromRaw raw) := by
  simp only [resolveDisposition, hdm]
  rw [if_pos hx]

theorem valid_ext_not_bin {e : String}
    (h : VALID_EXTENSIONS.contains e = true) : ¬ (e = "bin" ∨ e = "n/a") := by
  rintro (he | he) <;> subst he <;> exact absurd h (by decide)

/-- Claim C9: when the hint extension is `"n/a"` and the Content-Disposition
header carries a filename whose extension is in the known-good allowlist, any
successful download's filename ends in that header extension — the header
wins over the hint. -/
theorem download_header_extension_wins
    (download_url title : String) (head : Option HeadResponse)
    (resp : GetResponse) (cd raw : String)
    (hcd : resp.content_disposition = some cd)
    (hdm : dispFilenameOf cd = some raw)
    (hx : VALID_EXTENSIONS.contains (headerExtFromRaw raw) = true) :
    ∀ bs f,
      (download_book_to_discord download_url title "n/a" head resp).result =
        .success bs f →
      strEndsWith f ("." ++ headerExtFromRaw raw) = true := by
  intro bs f hres
  simp only [download_book_to_discord, hcd,
    resolveDisposition_allowlist _ _ cd raw hdm hx] at hres
  rw [if_neg (valid_ext_not_bin hx)] at hres
  repeat (split at hres <;> try simp at hres)
  obtain ⟨-, hf⟩ := hres
  rw [← hf, String.append_assoc]
  exact strEndsWith_append _ _

def c9resp : GetResponse :=
  ⟨200, "http://x/y", "application/octet-stream",
   some "attachment; filename=\"Great Book.pdf\"", none, "", [[1, 2, 3]]⟩

theorem c9_witness :
    strEndsWith "Great Book.pdf" ("." ++ headerExtFromRaw "Great Book.pdf") = true :=
  download_header_extension_wins "http://x/y" "My Book" none c9resp
    "attachment; filename=\"Great Book.pdf\"" "Great Book.pdf" rfl (by decide)
    (by decide) [1, 2, 3] "Great Book.pdf" (by decide)

/-! ### Claims C4, C5, C6, C7: the search parser -/

theorem parseRowBody_some_eq (su : String) (m : CatIdx) (cells : List Cell)
    (item : ResultItem) (h : parseRowBody su m cells = some item) :
    item = mkRowItem su m cells ∧
    (pyTruthy item.mirror1_url || pyTruthy item.mirror2_url) = true := by
  simp only [parseRowBody] at h
  by_cases h1 : 0 ≤ m.title ∧ m.title < (cells.length : Int)
  · rw [if_pos h1] at h
    by_cases h2 : (pyTruthy (mkRowItem su m cells).mirror1_url ||
        pyTruthy (mkRowItem su m cells).mirror2_url) = true
    · rw [if_pos h2] at h
      injection h with h
      subst h
      exact ⟨rfl, h2⟩
    · rw [if_neg h2] at h
      simp at h
  · rw [if_neg h1] at h
    simp at h

theorem mkRowItem_title_ne (su : String) (m : CatIdx) (cells : List Cell) :
    (mkRowItem su m cells).title ≠ "" := by
  simp only [mkRowItem]
  split
  · decide
  · rename_i hne
    exact hne

/-- Every member of a search result list comes from a row that
`parseRowFull` accepted. -/
theorem search_mem_parseRow (topic : String) (fetch : SearchFetch)
    (item : ResultItem) (h : item ∈ search_libgen_async topic fetch) :
    ∃ su r, parseRowFull su (idxFor topic) r = some item := by
  simp only [search_libgen_async] at h
  split at h
  · simp at h
  · split at h
    · simp at h
    · split at h
      · simp at h
      · split at h
        · simp at h
        · split at h
          · simp at h
          · obtain ⟨r, -, hpr⟩ := List.mem_filterMap.mp h
            exact ⟨_, r, hpr⟩

/-- Claim C4: every `ResultItem` the search parser appends has at least one
of the two mirror URLs present; rows with neither a mirror link nor a
substitutable details link never reach the result list (`parseRowBody`
returns `none` for them — they are dropped, not surfaced empty). -/
theorem parsed_item_has_mirror (topic : String) (fetch : SearchFetch)
    (item : ResultItem) (h : item ∈ search_libgen_async topic fetch) :
    item.mirror1_url ≠ none ∨ item.mirror2_url ≠ none := by
  obtain ⟨su, r, hpr⟩ := search_mem_parseRow topic fetch item h
  simp only [parseRowFull] at hpr
  split at hpr
  · simp at hpr
  · have hk := (parseRowBody_some_eq _ _ _ _ hpr).2
    have hk2 : pyTruthy item.mirror1_url = true ∨ pyTruthy item.mirror2_url = true := by
      simpa using hk
    rcases hk2 with h1 | h1
    · exact Or.inl (pyTruthy_ne_none h1)
    · exact Or.inr (pyTruthy_ne_none h1)

def headerRow : List Cell := [⟨"ID", []⟩, ⟨"Author(s)", []⟩, ⟨"Title", []⟩]

def c4row : List Cell :=
  [⟨"1", []⟩, ⟨"Author A", []⟩, ⟨"Some Book", [("/book/123", "Some Book")]⟩,
   ⟨"Pub", []⟩, ⟨"2001", []⟩, ⟨"200", []⟩, ⟨"English", []⟩, ⟨"1 MB", []⟩,
   ⟨"PDF", []⟩, ⟨"", [("http://library.lol/main/123", "[1]")]⟩, ⟨"", []⟩]

def c4page : SearchPage := ⟨[⟨"c", [headerRow, c4row]⟩]⟩

def c4item : ResultItem :=
  { title := "Some Book", authors := "Author A", publisher := "Pub",
    year := "2001", pages := "200", language := "English", size := "1 MB",
    extension := "pdf", mirror1_url := some "http://library.lol/main/123",
    mirror2_url := none, details_url := some "https://libgen.is/book/123" }

theorem c4_witness : c4item.mirror1_url ≠ none ∨ c4item.mirror2_url ≠ none :=
  parsed_item_has_mirror "libgen" (.response 200 c4page) c4item (by decide)

/-- A libgen-layout row whose title cell is blank and which carries a mirror
link. -/
def c5row : List Cell :=
  [⟨"2", []⟩, ⟨"Auth", []⟩, ⟨"", []⟩, ⟨"", []⟩, ⟨"", []⟩, ⟨"", []⟩, ⟨"", []⟩,
   ⟨"", []⟩, ⟨"", []⟩, ⟨"", [("http://library.lol/main/456", "[1]")]⟩, ⟨"", []⟩]

def c5page : SearchPage := ⟨[⟨"c", [headerRow, c5row]⟩]⟩

/-- Claim C5 counterexample: a row whose title cell is blank (no text, no
anchor) is not skipped — it survives parsing with the placeholder title
`"N/A"` (bot.py line 193, `if not title: title = "N/A"`). -/
theorem c5_counterexample :
    ((cellAt c5row 2).text = "" ∧ (cellAt c5row 2).links = []) ∧
    (search_libgen_async "libgen" (.response 200 c5page)).map ResultItem.title =
      ["N/A"] := by
  decide

/-- Claim C5 (amended): a libgen-category row that passes the cell-count
guard and carries a usable mirror link is kept even when its title cell is
blank; the parser substitutes the title `"N/A"` instead of skipping the
row. -/
theorem blank_title_row_kept (su : String) (cells : List Cell)
    (hlen : 10 < cells.length)
    (htc : cellAt cells 2 = ⟨"", []⟩)
    (t atext href : String) (rest : List (String × String))
    (hm9 : cellAt cells 9 = ⟨t, (href, atext) :: rest⟩)
    (hhref : strStartsWith href "http" = true) :
    (parseRowFull su libgenIdx cells).map ResultItem.title = some "N/A" := by
  have hglen : ¬ ((cells.length : Int) ≤ maxDefinedIndex libgenIdx) := by
    have hmax : maxDefinedIndex libgenIdx = 10 := by decide
    rw [hmax]
    omega
  have hhne : href ≠ "" := by
    intro he
    subst he
    exact absurd hhref (by decide)
  have hb : (href != "") = true := by simpa using hhne
  have c1 : (1 : Int) < (cells.length : Int) := by omega
  have c2 : (2 : Int) < (cells.length : Int) := by omega
  have c3 : (3 : Int) < (cells.length : Int) := by omega
  have c4 : (4 : Int) < (cells.length : Int) := by omega
  have c5 : (5 : Int) < (cells.length : Int) := by omega
  have c6 : (6 : Int) < (cells.length : Int) := by omega
  have c7 : (7 : Int) < (cells.length : Int) := by omega
  have c8 : (8 : Int) < (cells.length : Int) := by omega
  have c9 : (9 : Int) < (cells.length : Int) := by omega
  have c10 : (10 : Int) < (cells.length : Int) := by omega
  simp only [parseRowFull]
  rw [if_neg hglen]
  simp [parseRowBody, mkRowItem, libgenIdx, hm9, htc, hhref, hb, pyTruthy,
    c1, c2, c3, c4, c5, c6, c7, c8, c9, c10]

theorem c5_amended_witness :
    (parseRowFull "https://libgen.is/search.php" libgenIdx c5row).map
      ResultItem.title = some "N/A" :=
  blank_title_row_kept "https://libgen.is/search.php" c5row (by decide)
    (by decide) "" "[1]" "http://library.lol/main/456" [] (by decide) (by decide)

/-- A libgen-layout row whose title cell has text ending in a bracketed
10-digit ISBN but no anchor. -/
def c6row : List Cell :=
  [⟨"3", []⟩, ⟨"Auth", []⟩, ⟨"Foo [1234567890]", []⟩, ⟨"", []⟩, ⟨"", []⟩,
   ⟨"", []⟩, ⟨"", []⟩, ⟨"", []⟩, ⟨"", []⟩,
   ⟨"", [("http://library.lol/main/789", "[1]")]⟩, ⟨"", []⟩]

def c6page : SearchPage := ⟨[⟨"c", [headerRow, c6row]⟩]⟩

/-- Claim C6 counterexample: a title taken from a link-less cell is not
ISBN-stripped — the bracketed suffix survives into the result set (the
`re.sub` at bot.py line 190 runs only in the `link_tag` branch). -/
theorem c6_counterexample :
    (search_libgen_async "libgen" (.response 200 c6page)).map ResultItem.title =
      ["Foo [1234567890]"] ∧
    hasTrailingIsbnFragment "Foo [1234567890]" = true := by
  decide

/-- Claim C6 (amended): every parsed `ResultItem` has a non-empty title; the
trailing-ISBN stripping, however, is applied only to anchor-derived titles,
so titles read from link-less cells may retain a bracketed fragment (see the
counterexample). -/
theorem parsed_title_nonempty (topic : String) (fetch : SearchFetch)
    (item : ResultItem) (h : item ∈ search_libgen_async topic fetch) :
    item.title ≠ "" := by
  obtain ⟨su, r, hpr⟩ := search_mem_parseRow topic fetch item h
  simp only [parseRowFull] at hpr
  split at hpr
  · simp at hpr
  · rw [(parseRowBody_some_eq _ _ _ _ hpr).1]
    exact mkRowItem_title_ne _ _ _

def c6brow : List Cell :=
  [⟨"4", []⟩, ⟨"Auth B", []⟩, ⟨"Another Book", [("/book/999", "Another Book")]⟩,
   ⟨"", []⟩, ⟨"", []⟩, ⟨"", []⟩, ⟨"", []⟩, ⟨"", []⟩, ⟨"", []⟩,
   ⟨"", [("http://library.lol/main/999", "[1]")]⟩, ⟨"", []⟩]

def c6bpage : SearchPage := ⟨[⟨"c", [headerRow, c6brow]⟩]⟩

def c6bitem : ResultItem :=
  { title := "Another Book", authors := "Auth B", publisher := "",
    year := "", pages := "", language := "N/A", size := "N/A",
    extension := "n/a", mirror1_url := some "http://library.lol/main/999",
    mirror2_url := none, details_url := some "https://libgen.is/book/999" }

theorem c6_amended_witness : c6bitem.title ≠ "" :=
  parsed_title_nonempty "libgen" (.response 200 c6bpage) c6bitem (by decide)

/-- A results document with a recognisable table and zero data rows. -/
def c7emptyPage : SearchPage := ⟨[⟨"c", [headerRow]⟩]⟩

/-- Claim C7 counterexample: the code has no error channel — a transport
failure and a legitimately empty results table both return the empty list,
and `findbook_command` shows the same "no results" reply for both, so the
two cases are not user-distinguishable, contrary to the claim. -/
theorem c7_counterexample :
    search_libgen_async "libgen" (.requestError "Connection timed out") = [] ∧
    search_libgen_async "libgen" (.response 200 c7emptyPage) = [] ∧
    findbookReply (search_libgen_async "libgen"
      (.requestError "Connection timed out")) =
      findbookReply (search_libgen_async "libgen" (.response 200 c7emptyPage)) ∧
    findbookReply (search_libgen_async "libgen"
      (.requestError "Connection timed out")) = .noResults := by
  decide

/-- Claim C7 (amended): `search_libgen_async` returns only a result list,
with no error indicator; transport errors and non-2xx statuses produce the
empty list, and the user-visible reply for a failed search is the very
"no results" reply shown for an empty search. -/
theorem search_failure_empty (topic msg : String) (s : Nat) (page : SearchPage) :
    search_libgen_async topic (.requestError msg) = [] ∧
    (400 ≤ s → search_libgen_async topic (.response s page) = []) ∧
    findbookReply [] = .noResults := by
  refine ⟨?_, ?_, rfl⟩
  · simp only [search_libgen_async]
    split <;> rfl
  · intro hs
    simp only [search_libgen_async]
    split
    · rfl
    · rw [if_pos hs]

theorem c7_amended_witness :
    search_libgen_async "libgen" (.response 404 (⟨[]⟩ : SearchPage)) = [] :=
  (search_failure_empty "libgen" "timeout" 404 ⟨[]⟩).2.1 (by decide)

/-! ### Claims C3 and C10: the mirror resolver -/

/-- A mirror page whose first h2 anchor is labelled DOWNLOAD and whose second
h2 anchor is a GET link on a foreign host. -/
def c3badPage : MirrorPage :=
  ⟨[⟨true, "/x", "DOWNLOAD", true⟩,
    ⟨true, "https://other.example/get.php?md5=ABC", "GET", true⟩], none⟩

/-- Claim C3 counterexample: the code inspects only the *first* `h2 > a[href]`
anchor (`select_one`).  On a page whose first level-2-heading anchor is not
labelled GET, a later GET-labelled h2 anchor is never selected by pattern 1,
and (here, being an off-host absolute link that no later pattern accepts)
resolution fails entirely, contradicting the claim that every page containing
a GET h2 anchor resolves to that anchor's href. -/
theorem c3_counterexample :
    (c3badPage.anchors.any (fun a =>
      a.inH2 && a.hasHref && (upperStr a.text == "GET"))) = true ∧
    get_libgen_download_link_async "http://mirror.example/book"
      (.ok "http://mirror.example/book" c3badPage) = ⟨none, true⟩ := by
  decide

/-- Claim C3 (amended): when the *first* level-2-heading anchor carrying an
href has text "GET" (case-insensitively) and a non-empty href, the resolver
selects it via pattern 1 — before any other pattern is consulted — and
returns its href made absolute against the final post-redirect page URL
(`response.url`), not against the originally requested `page_url`. -/
theorem first_h2_get_anchor_resolved (page_url finalUrl : String)
    (page : MirrorPage) (a : Anchor)
    (hvalid : strStartsWith page_url "http" = true)
    (hfind : page.anchors.find? (fun x => x.inH2 && x.hasHref) = some a)
    (htext : upperStr a.text = "GET")
    (hhref : a.href ≠ "") :
    get_libgen_download_link_async page_url (.ok finalUrl page) =
      ⟨some (urljoin finalUrl a.href), true⟩ := by
  have hne : ¬ (page_url = "" ∨ ¬ strStartsWith page_url "http" = true) := by
    rintro (he | hn)
    · subst he
      exact absurd hvalid (by decide)
    · exact hn hvalid
  simp only [get_libgen_download_link_async]
  rw [if_neg hne]
  simp [hfind, htext, hhref]

def c3goodPage : MirrorPage := ⟨[⟨true, "/get.php?md5=ABC", "GET", true⟩], none⟩

theorem c3_amended_witness :
    get_libgen_download_link_async "https://libgen.is/book/123"
      (.ok "http://library.lol/main/ABC" c3goodPage) =
      ⟨some (urljoin "http://library.lol/main/ABC" "/get.php?md5=ABC"), true⟩ :=
  first_h2_get_anchor_resolved "https://libgen.is/book/123"
    "http://library.lol/main/ABC" c3goodPage ⟨true, "/get.php?md5=ABC", "GET", true⟩
    (by decide) (by decide) (by decide) (by decide)

/-- Claim C10: an empty page URL, or one not starting with "http", makes the
resolver return `none` immediately — before any network request is issued
(`fetched = false` for every possible fetch outcome). -/
theorem invalid_url_no_fetch (page_url : String)
    (h : page_url = "" ∨ strStartsWith page_url "http" = false) :
    ∀ fetch, get_libgen_download_link_async page_url fetch = ⟨none, false⟩ := by
  have hc : page_url = "" ∨ ¬ strStartsWith page_url "http" = true := by
    rcases h with h1 | h1
    · exact Or.inl h1
    · exact Or.inr (by simp [h1])
  intro fetch
  simp only [get_libgen_download_link_async]
  rw [if_pos hc]

theorem c10_witness :
    get_libgen_download_link_async "ftp://files.example/x.pdf" .failed =
      ⟨none, false⟩ :=
  invalid_url_no_fetch "ftp://files.example/x.pdf" (Or.inr (by decide)) .failed

/-! ### Claim C8: the result cache (modelled from the spec) -/

/-- Claim C8 (spec-modelled): inserting entry N+1 into the cache at its fixed
capacity of 100 removes exactly the oldest entry by insertion order — the
result is the old cache minus its head plus the new entry at the back, every
other entry untouched — and the cache stays at capacity. -/
theorem cache_eviction_oldest (cache : List (Nat × SearchResultSet)) (k : Nat)
    (v : SearchResultSet) (hfull : cache.length = CACHE_CAPACITY) :
    cacheInsert cache k v = cache.drop 1 ++ [(k, v)] ∧
    (cacheInsert cache k v).length = CACHE_CAPACITY := by
  have hd : cacheInsert cache k v = cache.drop 1 ++ [(k, v)] := by
    simp only [cacheInsert]
    have h1 : (cache ++ [(k, v)]).length = CACHE_CAPACITY + 1 := by
      simp [hfull]
    rw [h1, if_pos (Nat.lt_succ_self _)]
    have h2 : CACHE_CAPACITY + 1 - CACHE_CAPACITY = 1 := by omega
    rw [h2]
    cases cache with
    | nil => simp [CACHE_CAPACITY] at hfull
    | cons a t => simp
  refine ⟨hd, ?_⟩
  rw [hd]
  simp [hfull, CACHE_CAPACITY]

theorem c8_witness :
    cacheInsert (List.replicate 100 (0, ([] : SearchResultSet))) 7 [] =
      (List.replicate 100 (0, ([] : SearchResultSet))).drop 1 ++ [(7, [])] :=
  (cache_eviction_oldest (List.replicate 100 (0, [])) 7 []
    (by simp [CACHE_CAPACITY])).1

end BookFinder
